import Mathlib

/-!
Shallow embedding of the state synchronization engine of
homebridge-fidelity-adt-secure-home (src/index.js).

The source is JavaScript. Values that flow through the cache and the
remote-response handlers are modelled by a small JS value type with JS
truthiness; identifier resolution is modelled explicitly because the
source reads identifiers (STATUS, clientImei) that are never declared,
and method dispatch on the ADT class is modelled explicitly because
setState calls a method (sendStateToDevice) that the class does not
define. Thrown JS errors are modelled by Except; an async function that
resolves is Except.ok and one that rejects is Except.error.
-/

namespace Adt

/-- JS values, restricted to the shapes the program manipulates. -/
inductive JsValue where
  | undefined : JsValue
  | null : JsValue
  | bool : Bool → JsValue
  | num : Int → JsValue
  | str : String → JsValue
  | obj : List (String × JsValue) → JsValue

/-- JS errors thrown by the modelled code. -/
inductive JsError where
  | referenceError : String → JsError
  | typeError : String → JsError
  | error : String → JsError
deriving DecidableEq

/-- JS truthiness: undefined, null, false, 0 and the empty string are
falsy; every object (including the empty object) is truthy. -/
def truthy : JsValue → Bool
  | JsValue.undefined => false
  | JsValue.null => false
  | JsValue.bool b => b
  | JsValue.num n => n != 0
  | JsValue.str s => !s.isEmpty
  | JsValue.obj _ => true

/-- Property access v.k for the guarded accesses in the source: a missing
property or a primitive base yields undefined. (Every access in the
modelled code is guarded by a truthiness check on the base, so the JS
TypeError on null or undefined bases cannot occur there.) -/
def getProp (v : JsValue) (k : String) : JsValue :=
  match v with
  | JsValue.obj fields => (fields.lookup k).getD JsValue.undefined
  | _ => JsValue.undefined

/-- JS strict equality of a value against a number literal or numeric
argument, as used in the setState comparisons. -/
def jsEqInt (v : JsValue) (n : Int) : Bool :=
  match v with
  | JsValue.num m => m == n
  | _ => false

/-- Identifiers declared at top level in src/index.js (let or const
declarations, the class declaration) together with the ambient Node
identifiers the file uses. STATUS and clientImei are read by the code
but appear nowhere here: they are never declared or assigned. -/
def declaredIdentifiers : List String :=
  ["Accessory", "hap", "adt", "contactSensor", "securitySystem",
   "smartSecurityPlatform", "events", "cheerio", "request", "nodeCache",
   "BASE_URL", "LOGIN_PATH", "SYNC_INFO", "STATE_INFO", "ADT",
   "require", "module", "JSON", "console"]

/-- Evaluating a free identifier: a ReferenceError unless it is declared. -/
def lookupVar (x : String) : Except JsError Unit :=
  if declaredIdentifiers.contains x then Except.ok ()
  else Except.error (JsError.referenceError (x ++ " is not defined"))

/-- Methods defined on the ADT class body (src/index.js lines 80 to 416),
plus the events.EventEmitter methods it inherits. sendStateToDevice is
not among them. -/
def ADTmethods : List String :=
  ["constructor", "init", "getState", "setState", "login", "getSyncInfo",
   "getStateInfo", "getUserPreferences", "getStatusFromDevice",
   "armBeamsOnly", "disarmSite",
   "on", "off", "once", "emit", "addListener", "removeListener",
   "removeAllListeners", "listeners", "listenerCount", "eventNames",
   "prependListener", "prependOnceListener", "setMaxListeners",
   "getMaxListeners", "rawListeners"]

/-- Own data properties ever assigned on an ADT instance. None of them is
sendStateToDevice either. -/
def ADTinstanceFields : List String :=
  ["log", "name", "username", "password", "cacheTTL", "keypadPin",
   "statusCache", "token", "userId", "siteId", "targetState"]

/-- Calling this.m(...): a TypeError unless m is a method of the class or
an own property of the instance. -/
def lookupMethod (m : String) : Except JsError Unit :=
  if ADTmethods.contains m || ADTinstanceFields.contains m then Except.ok ()
  else Except.error (JsError.typeError ("this." ++ m ++ " is not a function"))

/-- Reading the single cache slot: none models an empty node-cache slot,
whose get returns undefined. -/
def cacheGet : Option JsValue → JsValue
  | some v => v
  | none => JsValue.undefined

/-- The node-cache set call together with the set event handler installed
in init (src/index.js lines 113 to 116): the value is always stored, and a
state event is emitted exactly when the handler condition, state and
state.alarm both truthy, holds. Returns the new slot and whether a state
event was emitted. -/
def cacheSet (_cache : Option JsValue) (state : JsValue) :
    Option JsValue × Bool :=
  (some state, truthy state && truthy (getProp state "alarm"))

/-- Embedding of getStatusFromDevice (src/index.js lines 318 to 323): the
function builds a local stub object and falls off the end without a
return statement, so the async function always resolves with undefined.
It never rejects and never returns the stub. -/
def getStatusFromDevice : Except JsError JsValue :=
  let _state : JsValue :=
    JsValue.obj [("alarm", JsValue.obj []), ("contactSensors", JsValue.obj [])]
  Except.ok JsValue.undefined

/-- getState (src/index.js lines 145 to 147): return
this.statusCache.get(STATUS). Evaluating the argument STATUS resolves the
identifier first; only if that succeeded would the cache be read. -/
def getState (cache : Option JsValue) : Except JsError JsValue :=
  match lookupVar "STATUS" with
  | Except.error e => Except.error e
  | Except.ok _ => Except.ok (cacheGet cache)

/-- Value returned by setState when it does not throw: null, or the Error
object built by new Error(msg) and returned (not thrown) on the not-ready
precondition. -/
inductive SetStateReturn where
  | nullVal : SetStateReturn
  | errObj : String → SetStateReturn
deriving DecidableEq

/-- Everything observable about one setState call: the value of
this.targetState when the call returns or throws, the returned value or
thrown error, and the remote arm/disarm requests issued. -/
structure SetStateOutcome where
  targetState : Option Int
  outcome : Except JsError SetStateReturn
  requests : List String

/-- The command-issuance tail of setState (src/index.js lines 168 to 171):
log, then this.sendStateToDevice(status). Resolving the member
sendStateToDevice on the instance fails, so the call throws a TypeError;
the branch for a resolvable method records the hypothetical remote send
and is unreachable. targetState is still set to the requested state when
control arrives here. -/
def sendStep (s : Int) : SetStateOutcome :=
  match lookupMethod "sendStateToDevice" with
  | Except.error e =>
      { targetState := some s, outcome := Except.error e, requests := [] }
  | Except.ok _ =>
      { targetState := some s, outcome := Except.ok SetStateReturn.nullVal,
        requests := ["sendStateToDevice"] }

/-- Body of setState after the getState call succeeded with value
currentStatus (src/index.js lines 154 to 171), with this.targetState
already set to the requested state. -/
def setStateFromCurrent (s : Int) (currentStatus : JsValue) :
    SetStateOutcome :=
  if truthy currentStatus && truthy (getProp currentStatus "alarm") then
    if jsEqInt (getProp (getProp currentStatus "alarm") "armingState") s then
      { targetState := none, outcome := Except.ok SetStateReturn.nullVal,
        requests := [] }
    else if jsEqInt (getProp (getProp currentStatus "alarm") "armingState") 3
        && jsEqInt (getProp (getProp currentStatus "alarm") "faultStatus") 1 then
      { targetState := none,
        outcome := Except.ok (SetStateReturn.errObj
          "Can\x27t arm system. System is not ready."),
        requests := [] }
    else sendStep s
  else sendStep s

/-- setState (src/index.js lines 149 to 172): set this.targetState to the
requested state, call this.getState(), then run the branch logic. A throw
inside getState propagates, leaving targetState set. -/
def setState (cache : Option JsValue) (s : Int) : SetStateOutcome :=
  match getState cache with
  | Except.error e =>
      { targetState := some s, outcome := Except.error e, requests := [] }
  | Except.ok currentStatus => setStateFromCurrent s currentStatus

/-- Everything observable about one run of the expired handler or of the
tail of init: the cache slot afterwards, how many error (recovery) events
and state events were emitted, whether init caught a failure, and an
error that escaped as an unhandled rejection. -/
structure RefreshOutcome where
  cache : Option JsValue
  errorEvents : Nat
  stateEvents : Nat
  failed : Bool
  unhandled : Option JsError

/-- The catch callback of the expired handler (src/index.js lines 124 to
129), run with rejection reason e: log, then this.statusCache.del(STATUS),
then this.emit(error). Evaluating STATUS comes first in the del call; if
it throws, neither the deletion nor the error event happens and the new
error escapes the promise chain unhandled. -/
def catchHandler (cache : Option JsValue) (_e : JsError) : RefreshOutcome :=
  match lookupVar "STATUS" with
  | Except.error e2 =>
      { cache := cache, errorEvents := 0, stateEvents := 0, failed := false,
        unhandled := some e2 }
  | Except.ok _ =>
      { cache := none, errorEvents := 1, stateEvents := 0, failed := false,
        unhandled := none }

/-- The expired handler (src/index.js lines 117 to 130):
getStatusFromDevice().then(set).catch(catchHandler). A throw inside the
then callback is caught by the catch callback. -/
def expiredHandler (cache : Option JsValue) : RefreshOutcome :=
  match getStatusFromDevice with
  | Except.error e => catchHandler cache e
  | Except.ok state =>
      match lookupVar "STATUS" with
      | Except.error e => catchHandler cache e
      | Except.ok _ =>
          let (c, emitted) := cacheSet cache state
          { cache := c, errorEvents := 0,
            stateEvents := if emitted then 1 else 0, failed := false,
            unhandled := none }

/-- The tail of init after a successful login (src/index.js lines 133 to
139): let state = await this.getStatusFromDevice();
this.statusCache.set(STATUS, state); this.emit(init, state). The whole
body sits in a try block whose catch only logs, so a throw sets failed
and nothing is cached or emitted. -/
def initAfterLogin (cache : Option JsValue) : RefreshOutcome :=
  match getStatusFromDevice with
  | Except.error _ =>
      { cache := cache, errorEvents := 0, stateEvents := 0, failed := true,
        unhandled := none }
  | Except.ok state =>
      match lookupVar "STATUS" with
      | Except.error _ =>
          { cache := cache, errorEvents := 0, stateEvents := 0, failed := true,
            unhandled := none }
      | Except.ok _ =>
          let (c, emitted) := cacheSet cache state
          { cache := c, errorEvents := 0,
            stateEvents := if emitted then 1 else 0, failed := false,
            unhandled := none }

/-- One entry of the masterSites array of a getSyncInfo response. -/
structure MasterSite where
  id : Int
deriving DecidableEq

/-- The fields of a getSyncInfo response the handler reads; none for
masterSites models a response without that field. -/
structure SyncResponse where
  status : String
  masterSites : Option (List MasterSite)
deriving DecidableEq

/-- Session fields owned by the ADT instance. -/
structure Session where
  token : Option String
  userId : Option Int
  siteId : Option Int
deriving DecidableEq

/-- The error message produced when getSyncInfo rejects on a successful
request whose payload lacks a usable masterSites array: the inner throw
is caught and rewrapped by the surrounding catch (src/index.js lines 235
and 238). -/
def syncFailMsg : String :=
  "Failed to retrieve sync info or save ID: Failed to retrieve sync info or masterSites array is empty"

/-- Response handling of getSyncInfo (src/index.js lines 230 to 239):
when response.status is SUCCESS and response.masterSites is truthy with
positive length, this.siteId is assigned the id of masterSites[0];
otherwise the function throws (so the session is left unchanged by the
aborted call). -/
def getSyncInfo (session : Session) (response : SyncResponse) :
    Except String Session :=
  match response.masterSites with
  | some sites =>
      if h : response.status = "SUCCESS" ∧ 0 < sites.length then
        Except.ok { session with siteId := some (sites.get ⟨0, h.2⟩).id }
      else Except.error syncFailMsg
  | none => Except.error syncFailMsg

/-- The configuration object passed to the ADT constructor; none models
an absent field. -/
structure ADTConfig where
  name : Option String
  username : Option String
  password : Option String
  cacheTTL : Option Int
  keypadPin : Option String
deriving DecidableEq

/-- JS truthiness of an optional string field: absent and empty are
falsy. -/
def truthyOptStr : Option String → Bool
  | none => false
  | some s => !s.isEmpty

/-- The fields an ADT instance holds after a completed construction. -/
structure ADTInstance where
  name : Option String
  username : Option String
  password : Option String
  cacheTTL : Int
  keypadPin : Option String
deriving DecidableEq

/-- The construction-time error message (src/index.js line 92). -/
def missingParamMsg : String := "Missing parameter. Please check configuration."

/-- The instance fields a completed construction produces from a config:
the config fields copied over, with cacheTTL defaulting to 5 when the
configured value is falsy (absent or 0). -/
def constructedInstance (config : ADTConfig) : ADTInstance :=
  { name := config.name, username := config.username,
    password := config.password,
    cacheTTL :=
      match config.cacheTTL with
      | some t => if t == 0 then 5 else t
      | none => 5,
    keypadPin := config.keypadPin }

/-- The ADT constructor (src/index.js lines 81 to 106): copy the config
fields (cacheTTL defaulting to 5 when falsy), then throw if username or
password is falsy. The throw happens before the status cache is created
and before init() is invoked, so a construction that throws performs no
network call; a completed construction invokes init(), whose first await
fires the login request. The second component lists the network requests
initiated during the constructor call. -/
def constructADT (config : ADTConfig) :
    Except String ADTInstance × List String :=
  if !truthyOptStr config.username || !truthyOptStr config.password then
    (Except.error missingParamMsg, [])
  else
    (Except.ok (constructedInstance config), ["GET /auth/login"])

/-- A populated cached state used as a concrete test value: alarm has
armingState 1 and faultStatus 0. -/
def readyCache : JsValue :=
  JsValue.obj [("alarm",
    JsValue.obj [("armingState", JsValue.num 1), ("faultStatus", JsValue.num 0)])]

/-- A cached state in the not-ready combination: armingState 3 and
faultStatus 1. -/
def notReadyCache : JsValue :=
  JsValue.obj [("alarm",
    JsValue.obj [("armingState", JsValue.num 3), ("faultStatus", JsValue.num 1)])]

/-- The stub state built (and discarded) by getStatusFromDevice: an empty
alarm object and an empty contactSensors object. -/
def stubState : JsValue :=
  JsValue.obj [("alarm", JsValue.obj []), ("contactSensors", JsValue.obj [])]

/-- Helper: looking up the identifier STATUS always throws, since it is
not among the declared identifiers. -/
theorem lookupVar_STATUS :
    lookupVar "STATUS" =
      Except.error (JsError.referenceError "STATUS is not defined") := rfl

/-- Helper: the command-issuance tail always throws a TypeError, because
sendStateToDevice resolves to undefined on the instance. -/
theorem sendStep_eq (s : Int) :
    sendStep s =
      { targetState := some s,
        outcome := Except.error
          (JsError.typeError "this.sendStateToDevice is not a function"),
        requests := [] } := rfl

/-- Claim C1: the spec requires getStatusFromDevice to resolve with a
fully populated RemoteState or reject with a FetchError. The code does
neither: it always resolves with undefined (the stub it builds is dead
local state), so the fetch contract is violated on every invocation. -/
theorem getStatusFromDevice_is_stub :
    getStatusFromDevice = Except.ok JsValue.undefined
    ∧ truthy JsValue.undefined = false :=
  ⟨rfl, rfl⟩

/-- Claim C2: the spec says setState with a cached state already in the
requested arming state returns null, clears targetState and issues no
remote command. Evaluated at such a cache (armingState 1, request 1), the
code instead throws a ReferenceError from the STATUS lookup inside
getState, with targetState left set to the request. -/
theorem setState_on_matching_state_throws :
    setState (some readyCache) 1 =
      { targetState := some 1,
        outcome := Except.error
          (JsError.referenceError "STATUS is not defined"),
        requests := [] } := rfl

/-- Claim C3: the spec says setState with a cached not-ready combination
(armingState 3, faultStatus 1) returns a precondition error, issues no
remote call and clears targetState. Evaluated there, the code instead
throws a ReferenceError from the STATUS lookup inside getState, with
targetState left set to the request. -/
theorem setState_on_not_ready_throws :
    setState (some notReadyCache) 2 =
      { targetState := some 2,
        outcome := Except.error
          (JsError.referenceError "STATUS is not defined"),
        requests := [] } := rfl

/-- Claim C4, counterexample: the stub state has an empty (hence truthy)
alarm object, and a cache set with it both stores it and emits a state
event, contradicting the claim that an empty alarm section is never
notified. -/
theorem stub_alarm_emits_state_event :
    getProp stubState "alarm" = JsValue.obj []
    ∧ cacheSet none stubState = (some stubState, true) :=
  ⟨rfl, rfl⟩

/-- Claim C4, amended: a cache set always stores the value; the state
event is suppressed exactly when the value or its alarm field is falsy,
so an absent (undefined) or null alarm does not notify, while any alarm
that is an object, the empty object included, notifies whenever the value
itself is truthy. -/
theorem cacheSet_stores_and_filters (cache : Option JsValue) (v : JsValue) :
    (cacheSet cache v).1 = some v
    ∧ ((getProp v "alarm" = JsValue.undefined ∨ getProp v "alarm" = JsValue.null) →
        (cacheSet cache v).2 = false)
    ∧ (∀ fields, getProp v "alarm" = JsValue.obj fields → truthy v = true →
        (cacheSet cache v).2 = true) := by
  refine ⟨rfl, ?_, ?_⟩
  · intro h
    rcases h with h | h <;> simp [cacheSet, h, truthy]
  · intro fields h hv
    show (truthy v && truthy (getProp v "alarm")) = true
    rw [h, hv]
    rfl

/-- Witness for the amended claim C4 at the stub state. -/
theorem cacheSet_stores_and_filters_witness :
    (cacheSet none stubState).1 = some stubState
    ∧ (cacheSet none stubState).2 = true :=
  ⟨(cacheSet_stores_and_filters none stubState).1,
   (cacheSet_stores_and_filters none stubState).2.2 [] rfl rfl⟩

/-- Claim C5: the spec says a failing expiry-driven refresh deletes the
cached value and raises exactly one recovery (error) event. In the code
the catch callback evaluates the undeclared identifier STATUS in the del
call before reaching the emit, so for every rejection reason the cache
slot is left untouched, zero recovery events are raised, and the new
ReferenceError escapes unhandled; moreover the expired handler as a whole
never emits a recovery event and never changes the cache. -/
theorem refresh_failure_loses_recovery_signal
    (cache : Option JsValue) (e : JsError) :
    catchHandler cache e =
      { cache := cache, errorEvents := 0, stateEvents := 0, failed := false,
        unhandled := some (JsError.referenceError "STATUS is not defined") }
    ∧ (expiredHandler cache).errorEvents = 0
    ∧ (expiredHandler cache).cache = cache :=
  ⟨rfl, rfl, rfl⟩

/-- Claim C6: on a successful response with a non-empty masterSites array
getSyncInfo assigns siteId from the id of the first entry, leaving token
and userId alone; when masterSites is absent or empty it throws the sync
failure message, and since the throw aborts the call before any
assignment the session (siteId included) is unchanged. -/
theorem getSyncInfo_first_site_or_error
    (session : Session) (response : SyncResponse) :
    (∀ s rest, response.status = "SUCCESS" →
        response.masterSites = some (s :: rest) →
        getSyncInfo session response =
          Except.ok { session with siteId := some s.id })
    ∧ ((response.masterSites = none ∨ response.masterSites = some []) →
        getSyncInfo session response = Except.error syncFailMsg) := by
  constructor
  · intro s rest hst hms
    simp [getSyncInfo, hms, hst]
  · intro h
    rcases h with h | h <;> simp [getSyncInfo, h]

/-- Witness for claim C6 at the concrete site list with id 42 and at the
empty site list. -/
theorem getSyncInfo_first_site_or_error_witness :
    getSyncInfo ⟨none, none, none⟩ ⟨"SUCCESS", some [⟨42⟩]⟩ =
      Except.ok ⟨none, none, some 42⟩
    ∧ getSyncInfo ⟨none, none, none⟩ ⟨"SUCCESS", some []⟩ =
      Except.error syncFailMsg :=
  ⟨(getSyncInfo_first_site_or_error ⟨none, none, none⟩ ⟨"SUCCESS", some [⟨42⟩]⟩).1
      ⟨42⟩ [] rfl rfl,
   (getSyncInfo_first_site_or_error ⟨none, none, none⟩ ⟨"SUCCESS", some []⟩).2
      (Or.inr rfl)⟩

/-- Claim C7: the spec says targetState is always cleared by the time
setState returns or errors. In the code every setState call throws the
STATUS ReferenceError out of getState after the assignment to
targetState and before any clearing branch, so targetState remains set to
the requested state for every cache contents and every request. -/
theorem setState_leaves_target_set (cache : Option JsValue) (s : Int) :
    (setState cache s).targetState = some s
    ∧ (setState cache s).outcome =
        Except.error (JsError.referenceError "STATUS is not defined") :=
  ⟨rfl, rfl⟩

/-- Claim C8: construction throws the missing-parameter error, before any
network request is initiated, exactly when username or password is falsy
(absent or empty); with truthy credentials construction completes and no
such error is thrown. -/
theorem constructADT_credential_check (config : ADTConfig) :
    (truthyOptStr config.username = false ∨ truthyOptStr config.password = false →
        constructADT config = (Except.error missingParamMsg, []))
    ∧ (truthyOptStr config.username = true → truthyOptStr config.password = true →
        constructADT config =
          (Except.ok (constructedInstance config), ["GET /auth/login"])) := by
  constructor
  · intro h
    rcases h with h | h <;> simp [constructADT, h]
  · intro hu hp
    simp [constructADT, hu, hp]

/-- Witness for claim C8: a config without username throws, the spec
scenario config with both credentials constructs. -/
theorem constructADT_credential_check_witness :
    constructADT ⟨none, none, some "b", some 2, none⟩ =
      (Except.error missingParamMsg, [])
    ∧ constructADT ⟨some "adt", some "a", some "b", some 2, none⟩ =
        (Except.ok (constructedInstance ⟨some "adt", some "a", some "b", some 2, none⟩),
         ["GET /auth/login"]) :=
  ⟨(constructADT_credential_check ⟨none, none, some "b", some 2, none⟩).1
      (Or.inl rfl),
   (constructADT_credential_check ⟨some "adt", some "a", some "b", some 2, none⟩).2
      rfl rfl⟩

/-- Claim C9: STATUS is not among the declared identifiers of the
program, so every cache access that names it fails: getState throws the
ReferenceError for every cache contents (and so never returns a cached
state), the initial cache set in init throws into the surrounding catch
(init fails, nothing cached), and the expired handler leaves the cache
untouched with the ReferenceError escaping unhandled. -/
theorem STATUS_never_declared (cache : Option JsValue) :
    declaredIdentifiers.contains "STATUS" = false
    ∧ getState cache =
        Except.error (JsError.referenceError "STATUS is not defined")
    ∧ (initAfterLogin cache).failed = true
    ∧ (initAfterLogin cache).cache = cache
    ∧ (expiredHandler cache).cache = cache
    ∧ (expiredHandler cache).unhandled =
        some (JsError.referenceError "STATUS is not defined") :=
  ⟨rfl, rfl, rfl, rfl, rfl, rfl⟩

/-- Claim C10: sendStateToDevice is neither a method of the ADT class
(inherited EventEmitter methods included) nor an own instance property,
so whenever the post-getState body of setState reaches the
command-issuance step (no truthy cached alarm, or a differing cached
armingState with the not-ready combination absent) the call throws a
TypeError; consequently no execution of setState ever records a remote
arm or disarm request. -/
theorem sendStateToDevice_missing_no_commands :
    ADTmethods.contains "sendStateToDevice" = false
    ∧ ADTinstanceFields.contains "sendStateToDevice" = false
    ∧ (∀ s currentStatus,
        (truthy currentStatus = false
          ∨ truthy (getProp currentStatus "alarm") = false
          ∨ (jsEqInt (getProp (getProp currentStatus "alarm") "armingState") s = false
             ∧ (jsEqInt (getProp (getProp currentStatus "alarm") "armingState") 3 = false
                ∨ jsEqInt (getProp (getProp currentStatus "alarm") "faultStatus") 1 = false))) →
        setStateFromCurrent s currentStatus =
          { targetState := some s,
            outcome := Except.error
              (JsError.typeError "this.sendStateToDevice is not a function"),
            requests := [] })
    ∧ (∀ cache s, (setState cache s).requests = []) := by
  refine ⟨rfl, rfl, ?_, fun cache s => rfl⟩
  intro s currentStatus h
  rcases h with h | h | ⟨h1, h2⟩
  · simp [setStateFromCurrent, h, sendStep_eq]
  · simp [setStateFromCurrent, h, sendStep_eq]
  · rcases h2 with h2 | h2 <;> simp [setStateFromCurrent, h1, h2, sendStep_eq]

/-- Witness for claim C10 at an empty cache slot (currentStatus
undefined) and request 1. -/
theorem sendStateToDevice_missing_no_commands_witness :
    setStateFromCurrent 1 JsValue.undefined =
      { targetState := some 1,
        outcome := Except.error
          (JsError.typeError "this.sendStateToDevice is not a function"),
        requests := [] } :=
  sendStateToDevice_missing_no_commands.2.2.1 1 JsValue.undefined (Or.inl rfl)

end Adt
